import Mathlib

/-!
Verification development for the glass annealing schedule engine of the
AnnealingCalculator repository.

The definitions below are a shallow embedding of the enhanced physics-model
variant of `calculateSchedule` in `src/src/lib/annealingLogic.ts` (the variant
with shape factors, conservativeness factors and brand factors), together with
the thickness-validation behaviour of its caller `handleCalculate` in
`src/src/App.tsx`.  JavaScript numbers are modelled as exact rationals (`ℚ`);
this is exact for every computation the program performs except that in `ℚ`
division by zero yields `0` where JavaScript yields `Infinity` — every theorem
that depends on a quotient therefore works at nonzero denominators, which the
source guarantees for positive thickness.  Optional (`number | undefined`)
parameters are modelled as `Option ℚ`, with JavaScript truthiness (`undefined`
and `0` are falsy) modelled explicitly.
-/

set_option maxRecDepth 8000

inductive GlassType
  | bullseye
  | oceanside
  | effetre
  | simax
  | satake
  | custom
deriving DecidableEq

inductive ScheduleMode
  | anneal_only
  | slump
  | tack_fuse
  | full_fuse
  | cast
deriving DecidableEq

inductive UnitSystem
  | metric
  | imperial
deriving DecidableEq

inductive ShapeFactor
  | slab
  | uneven
  | hollow_deep
deriving DecidableEq

inductive Conservativeness
  | fast
  | standard
  | cautious
deriving DecidableEq

/-- Glass property record; `none` models a `null` temperature (only the
`Custom` glass has null anneal/strain temperatures). -/
structure GlassProperties where
  anneal_temp : Option ℚ
  strain_point : Option ℚ
  brand_factor : ℚ
  slump_temp : Option ℚ := none
  tack_fuse_temp : Option ℚ := none
  full_fuse_temp : Option ℚ := none
  cast_temp : Option ℚ := none
deriving DecidableEq

/-- The `GLASS_LIBRARY` constant of the source (enhanced variant). -/
def GLASS_LIBRARY : GlassType → GlassProperties
  | .bullseye =>
      ⟨some 961, some 900, 1, some 1225, some 1350, some 1490, some 1525⟩
  | .oceanside =>
      ⟨some 950, some 850, 1, some 1225, some 1350, some 1465, some 1500⟩
  | .effetre =>
      ⟨some 968, some 860, 1, some 1200, some 1350, some 1450, some 1480⟩
  | .simax =>
      ⟨some 1050, some 950, 1.8, some 1300, some 1600, some 2000, some 2200⟩
  | .satake =>
      ⟨some 896, some 806, 0.75, some 1150, some 1300, some 1400, some 1450⟩
  | .custom =>
      ⟨none, none, 1, none, none, none, none⟩

/-- The `SHAPE_FACTORS` record of the source. -/
def SHAPE_FACTORS : ShapeFactor → ℚ
  | .slab => 1
  | .uneven => 1.5
  | .hollow_deep => 2

/-- The `CONSERVATIVENESS_FACTORS` record of the source. -/
def CONSERVATIVENESS_FACTORS : Conservativeness → ℚ
  | .fast => 0.75
  | .standard => 1
  | .cautious => 1.5

inductive SegmentType
  | heat
  | soak
  | cool
  | off
  | process
  | process_hold
deriving DecidableEq

/-- One waypoint of the schedule (`AnnealingSchedulePoint` in the source). -/
structure SchedulePoint where
  time : ℚ
  temp : ℚ
  label : String
  segment_type : SegmentType
deriving DecidableEq

/-- The engine's output.  The Format A (Paragon) instruction text is a second
string field in the source built from the same resolved values; none of the
claims concern it, so only the waypoints and the Format B (Digitry) text are
embedded. -/
structure ScheduleResult where
  points : List SchedulePoint
  digitry_instructions : String
deriving DecidableEq

/-- The full argument list of the enhanced `calculateSchedule`, gathered in a
structure; field names and default values follow the source signature. -/
structure ScheduleRequest where
  glassType : GlassType
  thickness : ℚ
  mode : ScheduleMode := .anneal_only
  units : UnitSystem := .imperial
  shape : ShapeFactor := .slab
  conservativeness : Conservativeness := .fast
  customAnneal : Option ℚ := none
  customStrain : Option ℚ := none
  customProcessTemp : Option ℚ := none
  customProcessHoldMins : Option ℚ := none
  customProcessRamp : Option ℚ := none
  moldDryHours : Option ℚ := none
  moldDryTemp : Option ℚ := none
  processHoldIndefinite : Bool := false
deriving DecidableEq

/-- JavaScript truthiness of a `number | undefined` value: `undefined` and `0`
are falsy, every other number is truthy. -/
def truthy : Option ℚ → Bool
  | none => false
  | some x => decide (x ≠ 0)

/-- The source's `toF` helper: converts a caller-supplied temperature to
Fahrenheit when the unit system is metric. -/
def toF (units : UnitSystem) (t : ℚ) : ℚ :=
  match units with
  | .metric => t * 9 / 5 + 32
  | .imperial => t

/-- The source's `toOutputTemp` helper: converts an internal Fahrenheit value
to the display unit. -/
def toOutputTemp (units : UnitSystem) (f : ℚ) : ℚ :=
  match units with
  | .metric => (f - 32) * 5 / 9
  | .imperial => f

/-- Resolution of the anneal temperature: custom override (JS-truthy) wins,
`Custom` glass falls back to 900, then the library value, and finally the
`if (!annealTemp) annealTemp = 900` falsiness fallback. -/
def resolvedAnnealTemp (req : ScheduleRequest) : ℚ :=
  let afterOverride : Option ℚ :=
    if req.glassType = .custom then
      some (if truthy req.customAnneal then toF req.units (req.customAnneal.getD 0) else 900)
    else if truthy req.customAnneal then
      some (toF req.units (req.customAnneal.getD 0))
    else
      (GLASS_LIBRARY req.glassType).anneal_temp
  match afterOverride with
  | none => 900
  | some x => if x = 0 then 900 else x

/-- Resolution of the strain point, mirroring `resolvedAnnealTemp` with the
fallback value 700. -/
def resolvedStrainPoint (req : ScheduleRequest) : ℚ :=
  let afterOverride : Option ℚ :=
    if req.glassType = .custom then
      some (if truthy req.customStrain then toF req.units (req.customStrain.getD 0) else 700)
    else if truthy req.customStrain then
      some (toF req.units (req.customStrain.getD 0))
    else
      (GLASS_LIBRARY req.glassType).strain_point
  match afterOverride with
  | none => 700
  | some x => if x = 0 then 700 else x

/-- Resolution of the process (peak) temperature: for `anneal_only` it is the
anneal temperature; otherwise a truthy override wins, then the per-mode
library temperature, then anneal temperature plus a per-mode offset. -/
def resolvedProcessTemp (req : ScheduleRequest) : ℚ :=
  let annealTemp := resolvedAnnealTemp req
  if req.mode = .anneal_only then annealTemp
  else if truthy req.customProcessTemp then toF req.units (req.customProcessTemp.getD 0)
  else
    match req.mode with
    | .slump => ((GLASS_LIBRARY req.glassType).slump_temp).getD (annealTemp + 325)
    | .tack_fuse => ((GLASS_LIBRARY req.glassType).tack_fuse_temp).getD (annealTemp + 400)
    | .full_fuse => ((GLASS_LIBRARY req.glassType).full_fuse_temp).getD (annealTemp + 550)
    | .cast => ((GLASS_LIBRARY req.glassType).cast_temp).getD (annealTemp + 600)
    | .anneal_only => annealTemp

/-- Resolution of the process hold duration in minutes: `0` for `anneal_only`;
otherwise a supplied override (tested with `!== undefined`, so an explicit `0`
is honored) wins over the per-mode defaults (slump 20, tack 10, full 15,
cast 30); finally the indefinite-hold flag forces the value to `0`. -/
def resolvedProcessHoldMins (req : ScheduleRequest) : ℚ :=
  let base : ℚ :=
    if req.mode = .anneal_only then 0
    else
      match req.customProcessHoldMins with
      | some v => v
      | none =>
        match req.mode with
        | .slump => 20
        | .tack_fuse => 10
        | .full_fuse => 15
        | .cast => 30
        | .anneal_only => 0
  if req.processHoldIndefinite then 0 else base

/-- Thickness in millimetres: metric input is centimetres, imperial is inches. -/
def thicknessMm (req : ScheduleRequest) : ℚ :=
  match req.units with
  | .metric => req.thickness * 10
  | .imperial => req.thickness * 25.4

/-- Effective thickness: physical thickness times the shape multiplier. -/
def effectiveThicknessMm (req : ScheduleRequest) : ℚ :=
  thicknessMm req * SHAPE_FACTORS req.shape

/-- The conservativeness (safety) multiplier chosen by the request. -/
def safeFactor (req : ScheduleRequest) : ℚ :=
  CONSERVATIVENESS_FACTORS req.conservativeness

/-- Anneal soak duration in hours:
`max(0.5, 0.16 * effective_thickness_mm) * safeFactor`. -/
def annealSoakHours (req : ScheduleRequest) : ℚ :=
  max 0.5 (0.16 * effectiveThicknessMm req) * safeFactor req

/-- Cooling Rate 1 before the cap, in °C per hour:
`15 * (25 / effective_thickness_mm)^2 * brand_factor / safeFactor`. -/
def r1_C_uncapped (req : ScheduleRequest) : ℚ :=
  15 * (25 / effectiveThicknessMm req) ^ 2 * (GLASS_LIBRARY req.glassType).brand_factor
    / safeFactor req

/-- Cooling Rate 1 in °C per hour, capped at 300. -/
def r1_C (req : ScheduleRequest) : ℚ :=
  if r1_C_uncapped req > 300 then 300 else r1_C_uncapped req

/-- Cooling Rate 1 in °F per hour. -/
def rate1_F (req : ScheduleRequest) : ℚ := r1_C req * 9 / 5

/-- Cooling Rate 2 before the cap, in °C per hour:
`27 * (25 / effective_thickness_mm)^2 * brand_factor / safeFactor`. -/
def r2_C_uncapped (req : ScheduleRequest) : ℚ :=
  27 * (25 / effectiveThicknessMm req) ^ 2 * (GLASS_LIBRARY req.glassType).brand_factor
    / safeFactor req

/-- Cooling Rate 2 in °C per hour, capped at 400. -/
def r2_C (req : ScheduleRequest) : ℚ :=
  if r2_C_uncapped req > 400 then 400 else r2_C_uncapped req

/-- Cooling Rate 2 in °F per hour. -/
def rate2_F (req : ScheduleRequest) : ℚ := r2_C req * 9 / 5

/-- Ramp rate to the process temperature in °F per hour: a truthy override
wins (converted from °C/hr when metric); otherwise 400, slowed to 200 above
25 mm effective thickness and to 100 above 50 mm. -/
def rampToProcessRate (req : ScheduleRequest) : ℚ :=
  if truthy req.customProcessRamp then
    match req.units with
    | .metric => req.customProcessRamp.getD 0 * 9 / 5
    | .imperial => req.customProcessRamp.getD 0
  else if effectiveThicknessMm req > 50 then 100
  else if effectiveThicknessMm req > 25 then 200
  else 400

/-- The source's guard `mode === 'cast' && moldDryHours && moldDryHours > 0`. -/
def moldDryActive (req : ScheduleRequest) : Bool :=
  decide (req.mode = .cast) && truthy req.moldDryHours
    && decide (req.moldDryHours.getD 0 > 0)

/-- The mold-dry temperature: a truthy override (converted to °F) or 250 °F. -/
def mdt (req : ScheduleRequest) : ℚ :=
  if truthy req.moldDryTemp then toF req.units (req.moldDryTemp.getD 0) else 250

/-- The fixed unload / room temperature, 150 °F. -/
def unloadTemp : ℚ := 150

/-- Waypoints for `anneal_only` mode: start, reach soak, anneal soak, strain
point, finished; cumulative times accumulate exactly as in the source. -/
def annealOnlyPoints (req : ScheduleRequest) : List SchedulePoint :=
  let annealTemp := resolvedAnnealTemp req
  let strainPoint := resolvedStrainPoint req
  let out := toOutputTemp req.units
  let t1 := (annealTemp - unloadTemp) / rampToProcessRate req
  let t2 := t1 + annealSoakHours req
  let t3 := t2 + (annealTemp - strainPoint) / rate1_F req
  let t4 := t3 + (strainPoint - unloadTemp) / rate2_F req
  [⟨0, out unloadTemp, "Start", .off⟩,
   ⟨t1, out annealTemp, "Reach Soak", .heat⟩,
   ⟨t2, out annealTemp, "Anneal Soak", .soak⟩,
   ⟨t3, out strainPoint, "Strain Point", .cool⟩,
   ⟨t4, out unloadTemp, "Finished", .cool⟩]

/-- Waypoints for the firing modes: optional mold-dry ramp and hold (cast
only), ramp to process, process hold, crash cool to anneal at 1000 °F/hr, then
the common soak / strain / finished tail. -/
def firingPoints (req : ScheduleRequest) : List SchedulePoint :=
  let annealTemp := resolvedAnnealTemp req
  let strainPoint := resolvedStrainPoint req
  let processTemp := resolvedProcessTemp req
  let ramp := rampToProcessRate req
  let out := toOutputTemp req.units
  let reachLabel := if req.mode = .cast then "Reach Cast" else "Process Reach"
  let holdLabel :=
    if req.processHoldIndefinite then "Process Hold (Indefinite)" else "Process Complete"
  if moldDryActive req then
    let m := mdt req
    let tA := (m - unloadTemp) / ramp
    let tB := tA + req.moldDryHours.getD 0
    let tP := tB + (processTemp - m) / ramp
    let tH := tP + resolvedProcessHoldMins req / 60
    let tC := tH + (processTemp - annealTemp) / 1000
    let tS := tC + annealSoakHours req
    let tStr := tS + (annealTemp - strainPoint) / rate1_F req
    let tEnd := tStr + (strainPoint - unloadTemp) / rate2_F req
    [⟨0, out unloadTemp, "Start", .off⟩,
     ⟨tA, out m, "Mold Dry Reach", .heat⟩,
     ⟨tB, out m, "Mold Dry Hold", .process⟩,
     ⟨tP, out processTemp, reachLabel, .process⟩,
     ⟨tH, out processTemp, holdLabel, .process_hold⟩,
     ⟨tC, out annealTemp, "Cool to Anneal", .cool⟩,
     ⟨tS, out annealTemp, "Anneal Soak", .soak⟩,
     ⟨tStr, out strainPoint, "Strain Point", .cool⟩,
     ⟨tEnd, out unloadTemp, "Finished", .cool⟩]
  else
    let tP := (processTemp - unloadTemp) / ramp
    let tH := tP + resolvedProcessHoldMins req / 60
    let tC := tH + (processTemp - annealTemp) / 1000
    let tS := tC + annealSoakHours req
    let tStr := tS + (annealTemp - strainPoint) / rate1_F req
    let tEnd := tStr + (strainPoint - unloadTemp) / rate2_F req
    [⟨0, out unloadTemp, "Start", .off⟩,
     ⟨tP, out processTemp, reachLabel, .process⟩,
     ⟨tH, out processTemp, holdLabel, .process_hold⟩,
     ⟨tC, out annealTemp, "Cool to Anneal", .cool⟩,
     ⟨tS, out annealTemp, "Anneal Soak", .soak⟩,
     ⟨tStr, out strainPoint, "Strain Point", .cool⟩,
     ⟨tEnd, out unloadTemp, "Finished", .cool⟩]

/-- The full waypoint sequence of one engine invocation. -/
def points (req : ScheduleRequest) : List SchedulePoint :=
  if req.mode = .anneal_only then annealOnlyPoints req else firingPoints req

/-- JavaScript `Math.round`: round half toward positive infinity. -/
def mathRound (x : ℚ) : ℤ := ⌊x + 1 / 2⌋

/-- `String.padStart(2, '0')` on the decimal rendering of an integer. -/
def pad2 (n : ℤ) : String :=
  if 0 ≤ n ∧ n < 10 then "0" ++ toString n else toString n

/-- The source's `generateTimeStr`: hours and minutes as `hh:mm`.  `Int.fdiv`
and `Int.fmod` agree with the source's `Math.floor(m / 60)` and
`Math.floor(m % 60)` on the non-negative inputs the program produces. -/
def generateTimeStr (totalMins : ℤ) : String :=
  pad2 (Int.fdiv totalMins 60) ++ ":" ++ pad2 (Int.fmod totalMins 60)

/-- The display temperature-unit suffix. -/
def tempUnit : UnitSystem → String
  | .metric => "°C"
  | .imperial => "°F"

/-- Is `pre` a leading segment of `l`?  (Helper for `jsIncludes`.) -/
def hasPrefSeq : List Char → List Char → Bool
  | [], _ => true
  | _ :: _, [] => false
  | a :: as, b :: bs => a == b && hasPrefSeq as bs

/-- Does `sub` occur contiguously inside `l`? -/
def hasSubSeq (sub : List Char) : List Char → Bool
  | [] => hasPrefSeq sub []
  | c :: cs => hasPrefSeq sub (c :: cs) || hasSubSeq sub cs

/-- JavaScript `String.includes`. -/
def jsIncludes (s sub : String) : Bool := hasSubSeq sub.data s.data

/-- The `TIME:` field of a Digitry step: the cumulative time as `hh:mm`, with
`" (HOLD)"` appended when the waypoint label contains `"Indefinite"`. -/
def digitryTimeStr (p : SchedulePoint) : String :=
  let t := generateTimeStr (mathRound (p.time * 60))
  if jsIncludes p.label "Indefinite" then t ++ " (HOLD)" else t

/-- One numbered Digitry step: label, rounded display temperature with unit
suffix, and cumulative time. -/
def digitryStepStr (units : UnitSystem) (n : ℕ) (p : SchedulePoint) : String :=
  "STEP " ++ toString n ++ ": " ++ p.label ++ "\n  TEMP: "
    ++ toString (mathRound p.temp) ++ tempUnit units ++ "\n  TIME: "
    ++ digitryTimeStr p ++ "\n\n"

/-- The steps of the Digitry text: one per waypoint, skipping the initial
start waypoint, numbered from 1 (the source's `points.slice(1).forEach`). -/
def digitrySteps (req : ScheduleRequest) : List String :=
  ((points req).drop 1).enum.map fun ip => digitryStepStr req.units (ip.1 + 1) ip.2

/-- Display name of the shape factor, as interpolated by the source. -/
def shapeStr : ShapeFactor → String
  | .slab => "slab"
  | .uneven => "uneven"
  | .hollow_deep => "hollow_deep"

/-- JavaScript number-to-string rendering of the three safety factors, as
interpolated into the instruction headers. -/
def safeFactorStr : Conservativeness → String
  | .fast => "0.75"
  | .standard => "1"
  | .cautious => "1.5"

/-- The full Format B (Digitry) instruction text. -/
def digitry (req : ScheduleRequest) : String :=
  "NOTE: Time is CUMULATIVE from start.\n"
    ++ "Logic: Physics Model v1 (Shape: " ++ shapeStr req.shape
    ++ ", Safety: " ++ safeFactorStr req.conservativeness ++ "x)\n"
    ++ "TEMPS IN " ++ tempUnit req.units ++ "\n\n"
    ++ String.join (digitrySteps req)

/-- The engine entry point: waypoints plus instruction text. -/
def calculateSchedule (req : ScheduleRequest) : ScheduleResult :=
  ⟨points req, digitry req⟩

/-- Model of the thickness validation in `App.tsx`'s `handleCalculate`: the
thickness field is parsed with `parseFloat`; `none` stands for a `NaN` parse
(non-numeric input), which is the only case rejected (`alert` and early
return).  Every successfully parsed number — zero and negative values
included — is passed to the engine unchanged. -/
def handleCalculate (req : ScheduleRequest) (parsedThickness : Option ℚ) :
    Option ScheduleResult :=
  match parsedThickness with
  | none => none
  | some t => some (calculateSchedule { req with thickness := t })

/-- A coherence predicate on resolved quantities: the resolved temperatures
descend from process to anneal to strain to the unload temperature, the ramp
rate is positive, the hold is non-negative, and an active mold-dry phase sits
between the unload and process temperatures.  Default-configured requests with
positive thickness satisfy it; pathological overrides (for example a strain
point below the unload temperature) violate it. -/
def wellOrdered (req : ScheduleRequest) : Prop :=
  0 < req.thickness ∧
  0 < rampToProcessRate req ∧
  unloadTemp ≤ resolvedStrainPoint req ∧
  resolvedStrainPoint req ≤ resolvedAnnealTemp req ∧
  resolvedAnnealTemp req ≤ resolvedProcessTemp req ∧
  0 ≤ resolvedProcessHoldMins req ∧
  (moldDryActive req = true →
    unloadTemp ≤ mdt req ∧ mdt req ≤ resolvedProcessTemp req ∧
      0 ≤ req.moldDryHours.getD 0)

/-- The reference scenario request of claim C8: Bullseye, 0.25 in, anneal
only, imperial units, default shape (slab) and conservativeness (fast). -/
def req8 : ScheduleRequest := { glassType := .bullseye, thickness := 0.25 }

/-- A request whose strain-point override (100 °F) lies below the unload
temperature, used to exhibit a decreasing waypoint time. -/
def reqC2bad : ScheduleRequest :=
  { glassType := .bullseye, thickness := 1, customStrain := some 100 }

/-- A thin-glass request (0.1 in) at which both cooling rates hit their caps
for every conservativeness setting. -/
def reqC6 : ScheduleRequest := { glassType := .bullseye, thickness := 0.1 }

/-- A tack-fuse request with an indefinite process hold. -/
def reqC9 : ScheduleRequest :=
  { glassType := .bullseye, thickness := 0.25, mode := .tack_fuse,
    processHoldIndefinite := true }

/-- A Custom-glass cast request with no temperature overrides. -/
def reqC3 : ScheduleRequest :=
  { glassType := .custom, thickness := 1, mode := .cast }

/-- A waypoint used by the C9 witness: the Reach step of `reqC9`. -/
def pt9 : SchedulePoint := ⟨3, 1350, "Process Reach", SegmentType.process⟩

theorem brand_factor_pos (g : GlassType) : 0 < (GLASS_LIBRARY g).brand_factor := by
  cases g <;> norm_num [GLASS_LIBRARY]

theorem safeFactor_pos (req : ScheduleRequest) : 0 < safeFactor req := by
  unfold safeFactor
  cases h : req.conservativeness <;> norm_num [CONSERVATIVENESS_FACTORS]

theorem effectiveThicknessMm_pos (req : ScheduleRequest) (h : 0 < req.thickness) :
    0 < effectiveThicknessMm req := by
  obtain ⟨g, th, mo, un, sh, co, ca, cs, cpt, cph, cpr, mdh, mdtp, phi⟩ := req
  simp only at h
  cases un <;> cases sh <;>
    simp only [effectiveThicknessMm, thicknessMm, SHAPE_FACTORS] <;> nlinarith

theorem r1_C_uncapped_pos (req : ScheduleRequest) (h : 0 < req.thickness) :
    0 < r1_C_uncapped req := by
  have he := effectiveThicknessMm_pos req h
  have hb := brand_factor_pos req.glassType
  have hs := safeFactor_pos req
  have h1 : 0 < 25 / effectiveThicknessMm req := div_pos (by norm_num) he
  have h2 : 0 < (25 / effectiveThicknessMm req) ^ 2 := pow_pos h1 2
  unfold r1_C_uncapped
  exact div_pos (mul_pos (mul_pos (by norm_num) h2) hb) hs

theorem r2_C_uncapped_pos (req : ScheduleRequest) (h : 0 < req.thickness) :
    0 < r2_C_uncapped req := by
  have he := effectiveThicknessMm_pos req h
  have hb := brand_factor_pos req.glassType
  have hs := safeFactor_pos req
  have h1 : 0 < 25 / effectiveThicknessMm req := div_pos (by norm_num) he
  have h2 : 0 < (25 / effectiveThicknessMm req) ^ 2 := pow_pos h1 2
  unfold r2_C_uncapped
  exact div_pos (mul_pos (mul_pos (by norm_num) h2) hb) hs

theorem rate1_F_pos (req : ScheduleRequest) (h : 0 < req.thickness) : 0 < rate1_F req := by
  have hu := r1_C_uncapped_pos req h
  unfold rate1_F r1_C
  split <;> linarith

theorem rate2_F_pos (req : ScheduleRequest) (h : 0 < req.thickness) : 0 < rate2_F req := by
  have hu := r2_C_uncapped_pos req h
  unfold rate2_F r2_C
  split <;> linarith

theorem annealSoakHours_nonneg (req : ScheduleRequest) : 0 ≤ annealSoakHours req := by
  have hs := safeFactor_pos req
  have h1 : (0 : ℚ) ≤ max 0.5 (0.16 * effectiveThicknessMm req) :=
    le_trans (by norm_num) (le_max_left _ _)
  unfold annealSoakHours
  exact mul_nonneg h1 hs.le

theorem effectiveThicknessMm_double (req : ScheduleRequest) :
    effectiveThicknessMm { req with thickness := 2 * req.thickness } =
      2 * effectiveThicknessMm req := by
  obtain ⟨g, th, mo, un, sh, co, ca, cs, cpt, cph, cpr, mdh, mdtp, phi⟩ := req
  cases un <;> cases sh <;>
    simp only [effectiveThicknessMm, thicknessMm, SHAPE_FACTORS] <;> ring

/-- C1: doubling the (effective) thickness, all other inputs fixed, divides
both pre-cap cooling rates by exactly four — the inverse-square law
`rate(t) = rate(25 mm) * (25 / t)^2` before the 300 / 400 °C/hr caps. -/
theorem C1_rate_inverse_square (req : ScheduleRequest) (h : 0 < req.thickness) :
    r1_C_uncapped { req with thickness := 2 * req.thickness } = r1_C_uncapped req / 4 ∧
    r2_C_uncapped { req with thickness := 2 * req.thickness } = r2_C_uncapped req / 4 := by
  have hd := effectiveThicknessMm_double req
  have hne : effectiveThicknessMm req ≠ 0 := ne_of_gt (effectiveThicknessMm_pos req h)
  have hsne : safeFactor req ≠ 0 := ne_of_gt (safeFactor_pos req)
  have h1 : safeFactor { req with thickness := 2 * req.thickness } = safeFactor req := rfl
  have h2 : (GLASS_LIBRARY ({ req with thickness := 2 * req.thickness }).glassType).brand_factor
      = (GLASS_LIBRARY req.glassType).brand_factor := rfl
  have key : (25 / (2 * effectiveThicknessMm req)) ^ 2 =
      (25 / effectiveThicknessMm req) ^ 2 / 4 := by
    field_simp
    ring
  constructor
  · unfold r1_C_uncapped
    rw [hd, h1, h2, key]
    ring
  · unfold r2_C_uncapped
    rw [hd, h1, h2, key]
    ring

theorem C1_witness :
    0 < req8.thickness ∧
    (r1_C_uncapped { req8 with thickness := 2 * req8.thickness } = r1_C_uncapped req8 / 4 ∧
     r2_C_uncapped { req8 with thickness := 2 * req8.thickness } = r2_C_uncapped req8 / 4) :=
  ⟨by norm_num [req8], C1_rate_inverse_square req8 (by norm_num [req8])⟩

/-- C4 counterexample: a parsed thickness of `-1` (non-positive) is not
rejected — the caller's guard only stops `NaN` — and the engine returns a
complete five-waypoint `ScheduleResult`. -/
theorem C4_counterexample :
    (handleCalculate { glassType := .bullseye, thickness := 1 } (some (-1))).map
      (fun r => r.points.length) = some 5 := by decide

/-- C4 (amended): only a `NaN` thickness parse is rejected, and by the UI
caller rather than the engine; every parsed numeric thickness — zero and
negative values included — reaches `calculateSchedule`, which returns a
non-empty schedule. -/
theorem C4_validation (req : ScheduleRequest) :
    handleCalculate req none = none ∧
    ∀ t : ℚ, t ≤ 0 →
      ∃ r, handleCalculate req (some t) = some r ∧ r.points ≠ [] := by
  refine ⟨rfl, ?_⟩
  intro t _
  refine ⟨calculateSchedule { req with thickness := t }, rfl, ?_⟩
  show points { req with thickness := t } ≠ []
  unfold points
  split
  · simp [annealOnlyPoints]
  · simp only [firingPoints]
    split <;> simp

theorem C4_witness :
    ((-1 : ℚ) ≤ 0) ∧
    ∃ r, handleCalculate req8 (some (-1)) = some r ∧ r.points ≠ [] :=
  ⟨by norm_num, (C4_validation req8).2 (-1) (by norm_num)⟩

/-- C7 counterexample: the default process holds are not monotone in mode
severity — slump (least severe) defaults to 20 minutes, which exceeds the
tack-fuse default of 10 minutes. -/
theorem C7_counterexample :
    resolvedProcessHoldMins { glassType := .bullseye, thickness := 1, mode := .slump } = 20 ∧
    resolvedProcessHoldMins { glassType := .bullseye, thickness := 1, mode := .tack_fuse } = 10 ∧
    resolvedProcessHoldMins { glassType := .bullseye, thickness := 1, mode := .full_fuse } = 15 ∧
    ¬ resolvedProcessHoldMins { glassType := .bullseye, thickness := 1, mode := .slump } ≤
        resolvedProcessHoldMins { glassType := .bullseye, thickness := 1, mode := .tack_fuse } := by
  decide

/-- C7 (amended): with no hold override and no indefinite flag, the default
process hold is a fixed per-mode constant — slump 20, tack-fuse 10, full-fuse
15, cast 30 minutes.  Cast has the longest default, but the constants are not
monotone in mode severity (slump exceeds tack-fuse and full-fuse). -/
theorem C7_default_holds (req : ScheduleRequest) (hc : req.customProcessHoldMins = none)
    (hi : req.processHoldIndefinite = false) :
    resolvedProcessHoldMins { req with mode := .slump } = 20 ∧
    resolvedProcessHoldMins { req with mode := .tack_fuse } = 10 ∧
    resolvedProcessHoldMins { req with mode := .full_fuse } = 15 ∧
    resolvedProcessHoldMins { req with mode := .cast } = 30 ∧
    ∀ m : ScheduleMode, resolvedProcessHoldMins { req with mode := m } ≤
      resolvedProcessHoldMins { req with mode := .cast } := by
  obtain ⟨g, th, mo, un, sh, co, ca, cs, cpt, cph, cpr, mdh, mdtp, phi⟩ := req
  simp only at hc hi
  subst hc
  subst hi
  refine ⟨rfl, rfl, rfl, rfl, ?_⟩
  intro m
  cases m
  · show (0 : ℚ) ≤ 30
    norm_num
  · show (20 : ℚ) ≤ 30
    norm_num
  · show (10 : ℚ) ≤ 30
    norm_num
  · show (15 : ℚ) ≤ 30
    norm_num
  · show (30 : ℚ) ≤ 30
    norm_num

theorem C7_witness :
    req8.customProcessHoldMins = none ∧ req8.processHoldIndefinite = false ∧
    resolvedProcessHoldMins { req8 with mode := .cast } = 30 :=
  ⟨rfl, rfl, (C7_default_holds req8 rfl rfl).2.2.2.1⟩

/-- C8 counterexample: at Bullseye / 0.25 in / anneal-only / imperial with the
engine's default shape and conservativeness, Rate 1 is 540 °F/hr and Rate 2 is
720 °F/hr (the 300 and 400 °C/hr caps expressed in °F/hr), not 300 and
400 °F/hr as claimed. -/
theorem C8_counterexample :
    rate1_F req8 = 540 ∧ rate2_F req8 = 720 ∧
    ¬ (rate1_F req8 = 300 ∧ rate2_F req8 = 400) := by
  have h1 : rate1_F req8 = 540 := by
    norm_num [req8, rate1_F, r1_C, r1_C_uncapped, effectiveThicknessMm, thicknessMm,
      SHAPE_FACTORS, safeFactor, CONSERVATIVENESS_FACTORS, GLASS_LIBRARY]
  have h2 : rate2_F req8 = 720 := by
    norm_num [req8, rate2_F, r2_C, r2_C_uncapped, effectiveThicknessMm, thicknessMm,
      SHAPE_FACTORS, safeFactor, CONSERVATIVENESS_FACTORS, GLASS_LIBRARY]
  refine ⟨h1, h2, ?_⟩
  rintro ⟨h3, -⟩
  rw [h1] at h3
  norm_num at h3

/-- C8 (amended): in the reference scenario the anneal soak is 0.762 h
(`max(0.5, 0.16·6.35)·0.75`), Rate 1 hits its 300 °C/hr cap (540 °F/hr),
Rate 2 hits its 400 °C/hr cap (720 °F/hr), and the final waypoint temperature
equals the unload temperature. -/
theorem C8_scenario :
    annealSoakHours req8 = 381 / 500 ∧
    r1_C req8 = 300 ∧ rate1_F req8 = 540 ∧
    r2_C req8 = 400 ∧ rate2_F req8 = 720 ∧
    ((points req8).map SchedulePoint.temp).getLast? = some 150 := by
  refine ⟨?_, ?_, ?_, ?_, ?_, ?_⟩
  · norm_num [req8, annealSoakHours, effectiveThicknessMm, thicknessMm, SHAPE_FACTORS,
      safeFactor, CONSERVATIVENESS_FACTORS, max_def]
  · norm_num [req8, r1_C, r1_C_uncapped, effectiveThicknessMm, thicknessMm,
      SHAPE_FACTORS, safeFactor, CONSERVATIVENESS_FACTORS, GLASS_LIBRARY]
  · norm_num [req8, rate1_F, r1_C, r1_C_uncapped, effectiveThicknessMm, thicknessMm,
      SHAPE_FACTORS, safeFactor, CONSERVATIVENESS_FACTORS, GLASS_LIBRARY]
  · norm_num [req8, r2_C, r2_C_uncapped, effectiveThicknessMm, thicknessMm,
      SHAPE_FACTORS, safeFactor, CONSERVATIVENESS_FACTORS, GLASS_LIBRARY]
  · norm_num [req8, rate2_F, r2_C, r2_C_uncapped, effectiveThicknessMm, thicknessMm,
      SHAPE_FACTORS, safeFactor, CONSERVATIVENESS_FACTORS, GLASS_LIBRARY]
  · simp [req8, points, annealOnlyPoints, toOutputTemp, List.getLast?, unloadTemp]

/-- C10: an override value of exactly 0 for `customAnneal`, `customStrain`,
`customProcessTemp` or `customProcessRamp` is JS-falsy and therefore treated
as absent (the default chain applies), while `customProcessHoldMins = 0` is
tested with `!== undefined` and honored as a zero-minute hold (the default for
cast without an override being 30). -/
theorem C10_zero_overrides (req : ScheduleRequest) :
    resolvedAnnealTemp { req with customAnneal := some 0 } =
      resolvedAnnealTemp { req with customAnneal := none } ∧
    resolvedStrainPoint { req with customStrain := some 0 } =
      resolvedStrainPoint { req with customStrain := none } ∧
    resolvedProcessTemp { req with customProcessTemp := some 0 } =
      resolvedProcessTemp { req with customProcessTemp := none } ∧
    rampToProcessRate { req with customProcessRamp := some 0 } =
      rampToProcessRate { req with customProcessRamp := none } ∧
    resolvedProcessHoldMins
        { req with customProcessHoldMins := some 0, processHoldIndefinite := false } = 0 ∧
    (req.mode = ScheduleMode.cast →
      resolvedProcessHoldMins
          { req with customProcessHoldMins := none, processHoldIndefinite := false } = 30) := by
  obtain ⟨g, th, mo, un, sh, co, ca, cs, cpt, cph, cpr, mdh, mdtp, phi⟩ := req
  have htz : truthy (some 0) = false := rfl
  have htn : truthy none = false := rfl
  have hA : resolvedAnnealTemp
        ⟨g, th, mo, un, sh, co, ca, cs, some 0, cph, cpr, mdh, mdtp, phi⟩ =
      resolvedAnnealTemp ⟨g, th, mo, un, sh, co, ca, cs, none, cph, cpr, mdh, mdtp, phi⟩ :=
    rfl
  have hE : effectiveThicknessMm
        ⟨g, th, mo, un, sh, co, ca, cs, cpt, cph, some 0, mdh, mdtp, phi⟩ =
      effectiveThicknessMm ⟨g, th, mo, un, sh, co, ca, cs, cpt, cph, none, mdh, mdtp, phi⟩ :=
    rfl
  refine ⟨?_, ?_, ?_, ?_, ?_, ?_⟩
  · simp [resolvedAnnealTemp, htz, htn]
  · simp [resolvedStrainPoint, htz, htn]
  · simp [resolvedProcessTemp, htz, htn, hA]
  · simp [rampToProcessRate, htz, htn, hE]
  · simp only [resolvedProcessHoldMins]
    split
    · rfl
    · split <;> rfl
  · intro hm
    simp only at hm
    subst hm
    rfl

theorem C10_witness :
    reqC3.mode = ScheduleMode.cast ∧
    resolvedProcessHoldMins
        { reqC3 with customProcessHoldMins := none, processHoldIndefinite := false } = 30 :=
  ⟨rfl, (C10_zero_overrides reqC3).2.2.2.2.2 rfl⟩

theorem points_head (req : ScheduleRequest) :
    (points req).head? = some ⟨0, toOutputTemp req.units unloadTemp, "Start", SegmentType.off⟩ := by
  unfold points
  split
  · rfl
  · simp only [firingPoints]
    split <;> rfl

theorem points_getLast_temp (req : ScheduleRequest) :
    ((points req).map SchedulePoint.temp).getLast? =
      some (toOutputTemp req.units unloadTemp) := by
  unfold points
  split
  · simp [annealOnlyPoints, List.getLast?]
  · simp only [firingPoints]
    split <;> simp [List.getLast?]

/-- C3: for every mode, a `Custom`-material request without anneal or strain
overrides resolves to the 900 °F / 700 °F fallbacks, and the schedule is built
to completion — its last waypoint sits at the unload temperature in display
units, with no unresolved (null) value left anywhere. -/
theorem C3_custom_defaults (req : ScheduleRequest) (hg : req.glassType = GlassType.custom)
    (ha : req.customAnneal = none) (hs : req.customStrain = none) :
    resolvedAnnealTemp req = 900 ∧ resolvedStrainPoint req = 700 ∧
    ((points req).map SchedulePoint.temp).getLast? =
      some (toOutputTemp req.units unloadTemp) := by
  refine ⟨?_, ?_, points_getLast_temp req⟩
  · norm_num [resolvedAnnealTemp, hg, ha, truthy]
  · norm_num [resolvedStrainPoint, hg, hs, truthy]

theorem C3_witness :
    (reqC3.glassType = GlassType.custom ∧ reqC3.customAnneal = none ∧
      reqC3.customStrain = none) ∧
    (resolvedAnnealTemp reqC3 = 900 ∧ resolvedStrainPoint reqC3 = 700 ∧
      ((points reqC3).map SchedulePoint.temp).getLast? =
        some (toOutputTemp reqC3.units unloadTemp)) :=
  ⟨⟨rfl, rfl, rfl⟩, C3_custom_defaults reqC3 rfl rfl rfl⟩

/-- C2 counterexample: with a strain-point override of 100 °F (below the
150 °F unload temperature) the engine's waypoint times are not non-decreasing
— the final waypoint comes earlier than the strain-point waypoint. -/
theorem C2_counterexample :
    ¬ List.Chain' (· ≤ ·) ((points reqC2bad).map SchedulePoint.time) := by
  have hpts : (points reqC2bad).map SchedulePoint.time =
      [0, 811 / 200, 7103 / 1000, 11921671 / 375000, 313820617 / 10125000] := by
    simp [reqC2bad, points, annealOnlyPoints, resolvedAnnealTemp, resolvedStrainPoint,
      truthy, toF, toOutputTemp, GLASS_LIBRARY, rampToProcessRate, effectiveThicknessMm,
      thicknessMm, SHAPE_FACTORS, safeFactor, CONSERVATIVENESS_FACTORS, annealSoakHours,
      rate1_F, r1_C, r1_C_uncapped, rate2_F, r2_C, r2_C_uncapped, unloadTemp, max_def]
    norm_num
  rw [hpts]
  simp only [List.chain'_cons, List.chain'_singleton, and_true]
  rintro ⟨-, -, -, h⟩
  norm_num at h

/-- C2 (amended): every schedule begins at time 0 at the unload temperature in
the request's display unit; and whenever the resolved quantities are coherently
ordered (`wellOrdered` — in particular no override places a temperature out of
descending order), the waypoint times are non-decreasing. -/
theorem C2_start_and_monotone (req : ScheduleRequest) :
    (points req).head? = some ⟨0, toOutputTemp req.units unloadTemp, "Start", SegmentType.off⟩ ∧
    (wellOrdered req → List.Chain' (· ≤ ·) ((points req).map SchedulePoint.time)) := by
  refine ⟨points_head req, ?_⟩
  rintro ⟨ht, hr, hs150, hsa, hap, hh, hmold⟩
  have hsoak := annealSoakHours_nonneg req
  have hr1 := rate1_F_pos req ht
  have hr2 := rate2_F_pos req ht
  have hhold : 0 ≤ resolvedProcessHoldMins req / 60 := div_nonneg hh (by norm_num)
  unfold points
  split
  · simp only [annealOnlyPoints, List.map_cons, List.map_nil, List.chain'_cons,
      List.chain'_singleton, and_true]
    have d1 : 0 ≤ (resolvedAnnealTemp req - unloadTemp) / rampToProcessRate req :=
      div_nonneg (by linarith) hr.le
    have d2 : 0 ≤ (resolvedAnnealTemp req - resolvedStrainPoint req) / rate1_F req :=
      div_nonneg (by linarith) hr1.le
    have d3 : 0 ≤ (resolvedStrainPoint req - unloadTemp) / rate2_F req :=
      div_nonneg (by linarith) hr2.le
    refine ⟨?_, ?_, ?_, ?_⟩ <;> linarith
  · simp only [firingPoints]
    split
    case isTrue hmo =>
      obtain ⟨hm1, hm2, hm3⟩ := hmold hmo
      simp only [List.map_cons, List.map_nil, List.chain'_cons, List.chain'_singleton, and_true]
      have d1 : 0 ≤ (mdt req - unloadTemp) / rampToProcessRate req :=
        div_nonneg (by linarith) hr.le
      have d2 : 0 ≤ (resolvedProcessTemp req - mdt req) / rampToProcessRate req :=
        div_nonneg (by linarith) hr.le
      have d3 : 0 ≤ (resolvedProcessTemp req - resolvedAnnealTemp req) / 1000 :=
        div_nonneg (by linarith) (by norm_num)
      have d4 : 0 ≤ (resolvedAnnealTemp req - resolvedStrainPoint req) / rate1_F req :=
        div_nonneg (by linarith) hr1.le
      have d5 : 0 ≤ (resolvedStrainPoint req - unloadTemp) / rate2_F req :=
        div_nonneg (by linarith) hr2.le
      refine ⟨?_, ?_, ?_, ?_, ?_, ?_, ?_, ?_⟩ <;> linarith
    case isFalse hmo =>
      simp only [List.map_cons, List.map_nil, List.chain'_cons, List.chain'_singleton, and_true]
      have d1 : 0 ≤ (resolvedProcessTemp req - unloadTemp) / rampToProcessRate req :=
        div_nonneg (by linarith) hr.le
      have d3 : 0 ≤ (resolvedProcessTemp req - resolvedAnnealTemp req) / 1000 :=
        div_nonneg (by linarith) (by norm_num)
      have d4 : 0 ≤ (resolvedAnnealTemp req - resolvedStrainPoint req) / rate1_F req :=
        div_nonneg (by linarith) hr1.le
      have d5 : 0 ≤ (resolvedStrainPoint req - unloadTemp) / rate2_F req :=
        div_nonneg (by linarith) hr2.le
      refine ⟨?_, ?_, ?_, ?_, ?_, ?_⟩ <;> linarith

theorem C2_witness :
    wellOrdered req8 ∧ List.Chain' (· ≤ ·) ((points req8).map SchedulePoint.time) := by
  have hA : resolvedAnnealTemp req8 = 961 := by
    simp [req8, resolvedAnnealTemp, truthy, GLASS_LIBRARY]
  have hS : resolvedStrainPoint req8 = 900 := by
    simp [req8, resolvedStrainPoint, truthy, GLASS_LIBRARY]
  have hP : resolvedProcessTemp req8 = 961 := by
    simp [req8, resolvedProcessTemp, resolvedAnnealTemp, truthy, GLASS_LIBRARY]
  have hw : wellOrdered req8 := by
    refine ⟨by norm_num [req8], ?_, ?_, ?_, ?_, ?_, ?_⟩
    · simp [req8, rampToProcessRate, truthy, effectiveThicknessMm, thicknessMm,
        SHAPE_FACTORS]
      norm_num
    · rw [hS]
      norm_num [unloadTemp]
    · rw [hS, hA]
      norm_num
    · rw [hA, hP]
    · simp [req8, resolvedProcessHoldMins]
    · intro hmo
      simp [req8, moldDryActive, truthy] at hmo
  exact ⟨hw, (C2_start_and_monotone req8).2 hw⟩

/-- C6 counterexample: at 0.1 in thickness both cooling rates hit their caps
for the fast and standard settings alike, so the rates are not strictly
decreasing across the conservativeness ordering. -/
theorem C6_counterexample :
    rate1_F { reqC6 with conservativeness := Conservativeness.standard } =
      rate1_F { reqC6 with conservativeness := Conservativeness.fast } ∧
    rate2_F { reqC6 with conservativeness := Conservativeness.standard } =
      rate2_F { reqC6 with conservativeness := Conservativeness.fast } ∧
    ¬ (rate1_F { reqC6 with conservativeness := Conservativeness.standard } <
        rate1_F { reqC6 with conservativeness := Conservativeness.fast }) := by
  have h1 : rate1_F { reqC6 with conservativeness := Conservativeness.standard } = 540 := by
    simp [reqC6, rate1_F, r1_C, r1_C_uncapped, effectiveThicknessMm, thicknessMm,
      SHAPE_FACTORS, safeFactor, CONSERVATIVENESS_FACTORS, GLASS_LIBRARY]
    norm_num
  have h2 : rate1_F { reqC6 with conservativeness := Conservativeness.fast } = 540 := by
    simp [reqC6, rate1_F, r1_C, r1_C_uncapped, effectiveThicknessMm, thicknessMm,
      SHAPE_FACTORS, safeFactor, CONSERVATIVENESS_FACTORS, GLASS_LIBRARY]
    norm_num
  have h3 : rate2_F { reqC6 with conservativeness := Conservativeness.standard } = 720 := by
    simp [reqC6, rate2_F, r2_C, r2_C_uncapped, effectiveThicknessMm, thicknessMm,
      SHAPE_FACTORS, safeFactor, CONSERVATIVENESS_FACTORS, GLASS_LIBRARY]
    norm_num
  have h4 : rate2_F { reqC6 with conservativeness := Conservativeness.fast } = 720 := by
    simp [reqC6, rate2_F, r2_C, r2_C_uncapped, effectiveThicknessMm, thicknessMm,
      SHAPE_FACTORS, safeFactor, CONSERVATIVENESS_FACTORS, GLASS_LIBRARY]
    norm_num
  refine ⟨by rw [h1, h2], by rw [h3, h4], ?_⟩
  rw [h1, h2]
  norm_num

/-- C6 (amended): for fixed other inputs and positive thickness, the anneal
soak is monotone (cautious ≥ standard ≥ fast), the capped cooling rates are
monotone non-strictly (cautious ≤ standard ≤ fast, with equality possible once
the caps bind), and the pre-cap rates are strictly decreasing in
conservativeness. -/
theorem C6_conservativeness_order (req : ScheduleRequest) (h : 0 < req.thickness) :
    (annealSoakHours { req with conservativeness := Conservativeness.standard } ≤
        annealSoakHours { req with conservativeness := Conservativeness.cautious } ∧
     annealSoakHours { req with conservativeness := Conservativeness.fast } ≤
        annealSoakHours { req with conservativeness := Conservativeness.standard }) ∧
    (rate1_F { req with conservativeness := Conservativeness.cautious } ≤
        rate1_F { req with conservativeness := Conservativeness.standard } ∧
     rate1_F { req with conservativeness := Conservativeness.standard } ≤
        rate1_F { req with conservativeness := Conservativeness.fast } ∧
     rate2_F { req with conservativeness := Conservativeness.cautious } ≤
        rate2_F { req with conservativeness := Conservativeness.standard } ∧
     rate2_F { req with conservativeness := Conservativeness.standard } ≤
        rate2_F { req with conservativeness := Conservativeness.fast }) ∧
    (r1_C_uncapped { req with conservativeness := Conservativeness.cautious } <
        r1_C_uncapped { req with conservativeness := Conservativeness.standard } ∧
     r1_C_uncapped { req with conservativeness := Conservativeness.standard } <
        r1_C_uncapped { req with conservativeness := Conservativeness.fast } ∧
     r2_C_uncapped { req with conservativeness := Conservativeness.cautious } <
        r2_C_uncapped { req with conservativeness := Conservativeness.standard } ∧
     r2_C_uncapped { req with conservativeness := Conservativeness.standard } <
        r2_C_uncapped { req with conservativeness := Conservativeness.fast }) := by
  have he := effectiveThicknessMm_pos req h
  have hb := brand_factor_pos req.glassType
  have hK1 : 0 < 15 * (25 / effectiveThicknessMm req) ^ 2 *
      (GLASS_LIBRARY req.glassType).brand_factor :=
    mul_pos (mul_pos (by norm_num) (pow_pos (div_pos (by norm_num) he) 2)) hb
  have hK2 : 0 < 27 * (25 / effectiveThicknessMm req) ^ 2 *
      (GLASS_LIBRARY req.glassType).brand_factor :=
    mul_pos (mul_pos (by norm_num) (pow_pos (div_pos (by norm_num) he) 2)) hb
  have hu1c : r1_C_uncapped { req with conservativeness := Conservativeness.cautious } =
      15 * (25 / effectiveThicknessMm req) ^ 2 *
        (GLASS_LIBRARY req.glassType).brand_factor / 1.5 := rfl
  have hu1s : r1_C_uncapped { req with conservativeness := Conservativeness.standard } =
      15 * (25 / effectiveThicknessMm req) ^ 2 *
        (GLASS_LIBRARY req.glassType).brand_factor / 1 := rfl
  have hu1f : r1_C_uncapped { req with conservativeness := Conservativeness.fast } =
      15 * (25 / effectiveThicknessMm req) ^ 2 *
        (GLASS_LIBRARY req.glassType).brand_factor / 0.75 := rfl
  have hu2c : r2_C_uncapped { req with conservativeness := Conservativeness.cautious } =
      27 * (25 / effectiveThicknessMm req) ^ 2 *
        (GLASS_LIBRARY req.glassType).brand_factor / 1.5 := rfl
  have hu2s : r2_C_uncapped { req with conservativeness := Conservativeness.standard } =
      27 * (25 / effectiveThicknessMm req) ^ 2 *
        (GLASS_LIBRARY req.glassType).brand_factor / 1 := rfl
  have hu2f : r2_C_uncapped { req with conservativeness := Conservativeness.fast } =
      27 * (25 / effectiveThicknessMm req) ^ 2 *
        (GLASS_LIBRARY req.glassType).brand_factor / 0.75 := rfl
  have s1a : r1_C_uncapped { req with conservativeness := Conservativeness.cautious } <
      r1_C_uncapped { req with conservativeness := Conservativeness.standard } := by
    rw [hu1c, hu1s]
    exact div_lt_div_of_pos_left hK1 (by norm_num) (by norm_num)
  have s1b : r1_C_uncapped { req with conservativeness := Conservativeness.standard } <
      r1_C_uncapped { req with conservativeness := Conservativeness.fast } := by
    rw [hu1s, hu1f]
    exact div_lt_div_of_pos_left hK1 (by norm_num) (by norm_num)
  have s2a : r2_C_uncapped { req with conservativeness := Conservativeness.cautious } <
      r2_C_uncapped { req with conservativeness := Conservativeness.standard } := by
    rw [hu2c, hu2s]
    exact div_lt_div_of_pos_left hK2 (by norm_num) (by norm_num)
  have s2b : r2_C_uncapped { req with conservativeness := Conservativeness.standard } <
      r2_C_uncapped { req with conservativeness := Conservativeness.fast } := by
    rw [hu2s, hu2f]
    exact div_lt_div_of_pos_left hK2 (by norm_num) (by norm_num)
  have cap_mono : ∀ u v c : ℚ, u ≤ v → (if u > c then c else u) ≤ (if v > c then c else v) := by
    intro u v c huv
    split <;> split <;> linarith
  have m1a : rate1_F { req with conservativeness := Conservativeness.cautious } ≤
      rate1_F { req with conservativeness := Conservativeness.standard } := by
    have hc : r1_C { req with conservativeness := Conservativeness.cautious } ≤
        r1_C { req with conservativeness := Conservativeness.standard } := by
      unfold r1_C
      exact cap_mono _ _ 300 (le_of_lt s1a)
    unfold rate1_F
    linarith
  have m1b : rate1_F { req with conservativeness := Conservativeness.standard } ≤
      rate1_F { req with conservativeness := Conservativeness.fast } := by
    have hc : r1_C { req with conservativeness := Conservativeness.standard } ≤
        r1_C { req with conservativeness := Conservativeness.fast } := by
      unfold r1_C
      exact cap_mono _ _ 300 (le_of_lt s1b)
    unfold rate1_F
    linarith
  have m2a : rate2_F { req with conservativeness := Conservativeness.cautious } ≤
      rate2_F { req with conservativeness := Conservativeness.standard } := by
    have hc : r2_C { req with conservativeness := Conservativeness.cautious } ≤
        r2_C { req with conservativeness := Conservativeness.standard } := by
      unfold r2_C
      exact cap_mono _ _ 400 (le_of_lt s2a)
    unfold rate2_F
    linarith
  have m2b : rate2_F { req with conservativeness := Conservativeness.standard } ≤
      rate2_F { req with conservativeness := Conservativeness.fast } := by
    have hc : r2_C { req with conservativeness := Conservativeness.standard } ≤
        r2_C { req with conservativeness := Conservativeness.fast } := by
      unfold r2_C
      exact cap_mono _ _ 400 (le_of_lt s2b)
    unfold rate2_F
    linarith
  have hbase : (0 : ℚ) ≤ max 0.5 (0.16 * effectiveThicknessMm req) :=
    le_trans (by norm_num) (le_max_left _ _)
  have soak_c : annealSoakHours { req with conservativeness := Conservativeness.cautious } =
      max 0.5 (0.16 * effectiveThicknessMm req) * 1.5 := rfl
  have soak_s : annealSoakHours { req with conservativeness := Conservativeness.standard } =
      max 0.5 (0.16 * effectiveThicknessMm req) * 1 := rfl
  have soak_f : annealSoakHours { req with conservativeness := Conservativeness.fast } =
      max 0.5 (0.16 * effectiveThicknessMm req) * 0.75 := rfl
  refine ⟨⟨?_, ?_⟩, ⟨m1a, m1b, m2a, m2b⟩, ⟨s1a, s1b, s2a, s2b⟩⟩
  · rw [soak_s, soak_c]
    exact mul_le_mul_of_nonneg_left (by norm_num) hbase
  · rw [soak_f, soak_s]
    exact mul_le_mul_of_nonneg_left (by norm_num) hbase

theorem C6_witness :
    0 < reqC6.thickness ∧
    annealSoakHours { reqC6 with conservativeness := Conservativeness.standard } ≤
      annealSoakHours { reqC6 with conservativeness := Conservativeness.cautious } := by
  have h : 0 < reqC6.thickness := by norm_num [reqC6]
  exact ⟨h, (C6_conservativeness_order reqC6 h).1.1⟩

/-- C5: in a non-anneal-only mode, the schedule computed with the indefinite
hold flag set has exactly the same waypoint times (hence the same total
duration) as the schedule computed without the flag but with an explicit
zero-minute hold; the indefinite hold is still emitted as its own waypoint,
distinctly labeled, at zero elapsed duration. -/
theorem C5_indefinite_hold_zero (req : ScheduleRequest)
    (hi : req.processHoldIndefinite = true) (hm : req.mode ≠ ScheduleMode.anneal_only) :
    ((points req).map SchedulePoint.time =
      (points { req with processHoldIndefinite := false, customProcessHoldMins := some 0 }).map SchedulePoint.time) ∧
    (∃ i p q, (points req)[i]? = some p ∧ (points req)[i + 1]? = some q ∧
      q.label = "Process Hold (Indefinite)" ∧ q.time = p.time ∧
      q.segment_type = SegmentType.process_hold) := by
  have hHold : resolvedProcessHoldMins req = 0 := by
    simp [resolvedProcessHoldMins, hi]
  have hHold' : resolvedProcessHoldMins
      { req with processHoldIndefinite := false, customProcessHoldMins := some 0 } = 0 := by
    simp [resolvedProcessHoldMins]
  have hA : resolvedAnnealTemp
      { req with processHoldIndefinite := false, customProcessHoldMins := some 0 } =
      resolvedAnnealTemp req := rfl
  have hS : resolvedStrainPoint
      { req with processHoldIndefinite := false, customProcessHoldMins := some 0 } =
      resolvedStrainPoint req := rfl
  have hP : resolvedProcessTemp
      { req with processHoldIndefinite := false, customProcessHoldMins := some 0 } =
      resolvedProcessTemp req := rfl
  have hRamp : rampToProcessRate
      { req with processHoldIndefinite := false, customProcessHoldMins := some 0 } =
      rampToProcessRate req := rfl
  have hR1 : rate1_F
      { req with processHoldIndefinite := false, customProcessHoldMins := some 0 } =
      rate1_F req := rfl
  have hR2 : rate2_F
      { req with processHoldIndefinite := false, customProcessHoldMins := some 0 } =
      rate2_F req := rfl
  have hSoak : annealSoakHours
      { req with processHoldIndefinite := false, customProcessHoldMins := some 0 } =
      annealSoakHours req := rfl
  have hMda : moldDryActive
      { req with processHoldIndefinite := false, customProcessHoldMins := some 0 } =
      moldDryActive req := rfl
  have hMdt : mdt
      { req with processHoldIndefinite := false, customProcessHoldMins := some 0 } =
      mdt req := rfl
  have hMdh : ({ req with processHoldIndefinite := false, customProcessHoldMins := some 0 } : ScheduleRequest).moldDryHours =
      req.moldDryHours := rfl
  have hUnits : ({ req with processHoldIndefinite := false, customProcessHoldMins := some 0 } : ScheduleRequest).units = req.units := rfl
  have hMode' : ¬ ({ req with processHoldIndefinite := false, customProcessHoldMins := some 0 } : ScheduleRequest).mode =
      ScheduleMode.anneal_only := hm
  constructor
  · unfold points
    rw [if_neg hm, if_neg hMode']
    simp only [firingPoints]
    by_cases hmo : moldDryActive req = true
    · have h2 : moldDryActive { req with processHoldIndefinite := false, customProcessHoldMins := some 0 } = true := by
        rw [hMda]
        exact hmo
      rw [if_pos hmo, if_pos h2]
      simp [hA, hS, hP, hRamp, hR1, hR2, hSoak, hHold, hHold', hUnits, hMdt, hMdh]
    · have h2 : ¬ (moldDryActive { req with processHoldIndefinite := false, customProcessHoldMins := some 0 } = true) := by
        rw [hMda]
        exact hmo
      rw [if_neg hmo, if_neg h2]
      simp [hA, hS, hP, hRamp, hR1, hR2, hSoak, hHold, hHold', hUnits]
  · unfold points
    rw [if_neg hm]
    simp only [firingPoints]
    by_cases hmo : moldDryActive req = true
    · rw [if_pos hmo]
      refine ⟨3, _, _, rfl, rfl, ?_, ?_, rfl⟩
      · simp [hi]
      · simp [hHold]
    · rw [if_neg hmo]
      refine ⟨1, _, _, rfl, rfl, ?_, ?_, rfl⟩
      · simp [hi]
      · simp [hHold]

theorem C5_witness :
    (reqC9.processHoldIndefinite = true ∧ reqC9.mode ≠ ScheduleMode.anneal_only) ∧
    ((points reqC9).map SchedulePoint.time =
      (points { reqC9 with processHoldIndefinite := false, customProcessHoldMins := some 0 }).map SchedulePoint.time) :=
  ⟨⟨rfl, by decide⟩, (C5_indefinite_hold_zero reqC9 rfl (by decide)).1⟩

theorem reqC9_points : points reqC9 =
    [⟨0, 150, "Start", SegmentType.off⟩,
     ⟨3, 1350, "Process Reach", SegmentType.process⟩,
     ⟨3, 1350, "Process Hold (Indefinite)", SegmentType.process_hold⟩,
     ⟨3389 / 1000, 961, "Cool to Anneal", SegmentType.cool⟩,
     ⟨4151 / 1000, 961, "Anneal Soak", SegmentType.soak⟩,
     ⟨115127 / 27000, 900, "Strain Point", SegmentType.cool⟩,
     ⟨35813 / 6750, 150, "Finished", SegmentType.cool⟩] := by
  simp [reqC9, points, firingPoints, moldDryActive, truthy, resolvedAnnealTemp,
    resolvedStrainPoint, resolvedProcessTemp, resolvedProcessHoldMins, toF, toOutputTemp,
    GLASS_LIBRARY, rampToProcessRate, effectiveThicknessMm, thicknessMm, SHAPE_FACTORS,
    safeFactor, CONSERVATIVENESS_FACTORS, annealSoakHours, rate1_F, r1_C, r1_C_uncapped,
    rate2_F, r2_C, r2_C_uncapped, unloadTemp, mdt, max_def]
  norm_num

/-- C9 counterexample: the Digitry step for an indefinite hold still prints
the terminating cumulative time — the `(HOLD)` marker is appended after the
`hh:mm` time rather than replacing it. -/
theorem C9_counterexample :
    (digitrySteps reqC9)[1]? =
      some "STEP 2: Process Hold (Indefinite)\n  TEMP: 1350°F\n  TIME: 03:00 (HOLD)\n\n" := by
  have hstep : digitryStepStr UnitSystem.imperial 2
      (⟨3, 1350, "Process Hold (Indefinite)", SegmentType.process_hold⟩ : SchedulePoint) =
      "STEP 2: Process Hold (Indefinite)\n  TEMP: 1350°F\n  TIME: 03:00 (HOLD)\n\n" := by
    simp only [digitryStepStr, digitryTimeStr]
    norm_num [mathRound]
    decide
  simp only [digitrySteps, reqC9_points]
  simp [List.enum, List.enumFrom, reqC9]
  rw [hstep]

/-- C9 (amended): the Digitry text contains exactly one numbered step per
waypoint excluding the initial start waypoint; step `i+1` renders waypoint
`i+1`'s label, rounded display temperature with unit suffix, and cumulative
time as `hh:mm`; and an indefinite-hold step carries the `" (HOLD)"` marker
appended after the `hh:mm` time (the terminating time is still printed). -/
theorem C9_digitry_steps (req : ScheduleRequest) :
    (digitrySteps req).length = (points req).length - 1 ∧
    (∀ (i : ℕ) (p : SchedulePoint), ((points req).drop 1)[i]? = some p →
      (digitrySteps req)[i]? = some (digitryStepStr req.units (i + 1) p)) ∧
    (∀ p : SchedulePoint, p.label = "Process Hold (Indefinite)" →
      digitryTimeStr p = generateTimeStr (mathRound (p.time * 60)) ++ " (HOLD)") := by
  refine ⟨?_, ?_, ?_⟩
  · simp [digitrySteps, List.enum_length]
  · intro i p hp
    have hp' : (points req)[i + 1]? = some p := by
      rw [Nat.add_comm i 1, ← List.getElem?_drop]
      exact hp
    simp only [digitrySteps, List.getElem?_map, List.getElem?_enum]
    simp [hp']
  · intro p hp
    have hj : jsIncludes "Process Hold (Indefinite)" "Indefinite" = true := by decide
    simp [digitryTimeStr, hp, hj]

theorem C9_witness :
    ((points reqC9).drop 1)[0]? = some pt9 ∧
    (digitrySteps reqC9)[0]? = some (digitryStepStr reqC9.units 1 pt9) := by
  have hp : ((points reqC9).drop 1)[0]? = some pt9 := by
    rw [reqC9_points]
    rfl
  exact ⟨hp, (C9_digitry_steps reqC9).2.1 0 pt9 hp⟩
